import Mathlib

/-!
Verification development for the `schedule_surgery` repository.

The Python sources under `src/schedule_surgery/` are shallowly embedded below:
`workplaces.py` becomes concrete lists and index constants, `worker.py` becomes
the `Worker` structure with its derived properties, and the model construction
in `optimize.py` becomes executable constraint checkers over an assignment
function `x : worker index → day index → workplace index → Bool` (a CP-SAT
solution valuation).  Reified auxiliary Booleans of the model are passed
explicitly, so "the constraints hold" is a decidable statement about a
candidate solution together with its auxiliary valuation.
-/

namespace SchedSurg

/-- Booleans counted as 0/1, as CP-SAT does with Boolean variables in linear
expressions. -/
def b2n (b : Bool) : Nat := if b then 1 else 0

/- ### workplaces.py -/

def STANDARD_WORKPLACES : List String :=
  ["KRG 1", "KRG 2", "KRG 3", "KRG 4", "KRG 5",
   "KRG N - B", "KRG N - MOP", "KRG N - ABD"]

def UNCONNECTED_WORKPLACES : List String :=
  ["ABDOMEN", "ABD prip.", "TRAVMA"]

def ALL_WORKPLACES : List String := STANDARD_WORKPLACES ++ UNCONNECTED_WORKPLACES

/-- Python `range(0, 5)` of `range_day_workplaces`, materialized as a list of
indices (the source only ever iterates over or tests membership in it). -/
def range_day_workplaces : List Nat := [0, 1, 2, 3, 4]

/-- Python `range(5, 8)` of `range_night_workplaces`. -/
def range_night_workplaces : List Nat := [5, 6, 7]

/-- Python `range(8, 11)` of `range_unconnected_workplaces`. -/
def range_unconnected_workplaces : List Nat := [8, 9, 10]

def get_ndx (name : String) : Nat := ALL_WORKPLACES.indexOf name

def b_day_ndx : Nat := get_ndx "KRG 1"
def abd_day_ndx : Nat := get_ndx "KRG 2"
def mop_day_ndx : Nat := get_ndx "KRG 3"
def b_night_ndx : Nat := get_ndx "KRG N - B"
def mop_night_ndx : Nat := get_ndx "KRG N - MOP"
def abd_night_ndx : Nat := get_ndx "KRG N - ABD"

/- ### days.py (not under src/) -/

inductive DayKind where
  | workday
  | weekend
  | holiday
deriving DecidableEq

/-- Modelled from the spec: the repository imports `schedule_surgery.days.Day`,
whose source file is not under `src/`.  Per the spec (§3 Data Model, §4.2 Day
Calendar) a Day is a calendar date together with a kind in
{workday, weekend, holiday}; `is_workday` is true only for workdays, and the
string form of a Day is its date string (used for the first schedule column). -/
structure Day where
  dateStr : String
  kind : DayKind
deriving DecidableEq

def Day.is_workday (d : Day) : Bool := d.kind == DayKind.workday

def Day.is_weekend (d : Day) : Bool := d.kind == DayKind.weekend

def Day.is_holiday (d : Day) : Bool := d.kind == DayKind.holiday

/-- Out-of-range default for `List.getD` over day lists (the source always
indexes within the horizon). -/
def emptyDay : Day := ⟨"", DayKind.workday⟩

/- ### worker.py -/

/-- The `Worker` record of `worker.py`, after `_resolve_workplaces` has been
applied (so `workplaces_no` already contains the unconnected indices whose
quota is zero).  The `specialty` tuple is split into its two slots as in the
constructor; `workdates` is the per-day `(day_slot, night_slot)` pair list with
entries in {+1, 0, -1}. -/
structure Worker where
  name : String
  included : String
  specialty_wishes : String
  specialty_master : String
  status : String
  workplaces_yes : List Nat
  workplaces_maybe : List Nat
  workplaces_no : List Nat
  workdates : List (Int × Int)
  reduce_shifts : Nat
  works_abd_dez : Nat
  works_abd_prip : Nat
  works_travma_prip : Nat
  max_num_dayshifts : Option Nat
  num_dayshifts_omejeno : Option Nat
  num_nightshifts_omejeno : Option Nat
deriving DecidableEq

/-- Property `works_night_shifts`: some workplace in YES + MAYBE lies in
`range(5, 8)`, the night range. -/
def Worker.works_night_shifts (w : Worker) : Bool :=
  (w.workplaces_yes ++ w.workplaces_maybe).any (fun pp => 5 ≤ pp && pp < 8)

/-- The `min_shifts_dict` of `Worker.min_night_shifts`, as an association
list; in the source an unknown status raises `KeyError`, here lookup returns
`none`. -/
def min_shifts_dict : List (String × Nat) :=
  [("1. leto specializacije", 0),
   ("2. leto specializacije", 5),
   ("3. leto specializacije", 4),
   ("4. leto specializacije", 3),
   ("5. leto specializacije", 2),
   ("6. leto specializacije", 1),
   ("Manj kot 6 mesecev do specialističnega izpita", 0),
   ("Specialist", 0)]

/-- The `status_to_year_dict` of `Worker.year_of_specialization`. -/
def status_to_year_dict : List (String × Nat) :=
  [("1. leto specializacije", 1),
   ("2. leto specializacije", 2),
   ("3. leto specializacije", 3),
   ("4. leto specializacije", 4),
   ("5. leto specializacije", 5),
   ("6. leto specializacije", 6),
   ("Manj kot 6 mesecev do specialističnega izpita", 6),
   ("Specialist", 6)]

def min_night_shifts (status : String) : Option Nat :=
  min_shifts_dict.lookup status

def year_of_specialization (status : String) : Option Nat :=
  status_to_year_dict.lookup status

/-- Availability pair of a worker on day index `dd` (`worker.workdates[dd]`);
the source assumes the list covers every day of the horizon, an out-of-range
index is treated as fully forbidden here. -/
def availPair (w : Worker) (dd : Nat) : Int × Int :=
  w.workdates.getD dd (-1, -1)

/-- The test `avail in [+1, 0]` used throughout `optimize.py`. -/
def availOK (a : Int) : Bool := a == 1 || a == 0

/- ### optimize.py, preschedule handling (lines 63-80) -/

/-- Outcome of the preschedule loop: `pins` are the `(ww, dd, pp)` triples with
`model.Add(work[ww, dd, pp] == 1)` (prescheduled name found in the roster);
`zeros` is `preschedule_constraints`, the `(dd, pp)` pairs where every worker
was forced to 0 (name not in the roster). -/
structure PreschedOut where
  pins : List (Nat × Nat × Nat)
  zeros : List (Nat × Nat)
deriving DecidableEq

def processPreschedule (workers : List Worker) (dayList : List Day)
    (preschedule : List (String × Day × String)) : PreschedOut :=
  preschedule.foldl (fun acc entry =>
    let worker_names := workers.map Worker.name
    let day_ndx := dayList.indexOf entry.2.1
    let workplace_ndx := ALL_WORKPLACES.indexOf entry.2.2
    if entry.1 ∈ worker_names then
      { acc with pins := acc.pins ++ [(worker_names.indexOf entry.1, day_ndx, workplace_ndx)] }
    else
      { acc with zeros := acc.zeros ++ [(day_ndx, workplace_ndx)] })
    ⟨[], []⟩

/- ### optimize.py, unconnected availability pre-check (lines 87-134) -/

/-- Per-day availability counters of the pre-model check, mirroring the three
`avail_workers_*` lists.  For ABDOMEN and "ABD prip." a preschedule entry on
that day contributes the `"preschedule"` marker; for TRAVMA the source appends
the marker to the unused `empty_days_travma_prip` list instead, so nothing is
contributed here.  On non-workdays, "ABD prip." receives one entry per
available worker regardless of quota (the `append(None)` branch). -/
def availCountAbd (workers : List Worker) (dd : Nat) (psc : List (Nat × Nat)) : Nat :=
  (if (dd, get_ndx "ABDOMEN") ∈ psc then 1 else 0) +
    (workers.filter (fun w =>
      availOK (availPair w dd).1 && availOK (availPair w dd).2 && w.works_abd_dez > 0)).length

def availCountTravma (workers : List Worker) (dd : Nat) : Nat :=
  (workers.filter (fun w =>
    availOK (availPair w dd).1 && availOK (availPair w dd).2 && w.works_travma_prip > 0)).length

def availCountAbdPrip (workers : List Worker) (day : Day) (dd : Nat)
    (psc : List (Nat × Nat)) : Nat :=
  (if (dd, get_ndx "ABD prip.") ∈ psc then 1 else 0) +
    (workers.filter (fun w =>
      availOK (availPair w dd).1 && availOK (availPair w dd).2 &&
        (if day.is_workday then w.works_abd_prip > 0 else true))).length

/-- The per-day emptiness checks in source order: ABDOMEN first, then
"ABD prip.", then TRAVMA; the first empty list triggers `exit()` with the
offending workplace. -/
def checkDayAvailability (workers : List Worker) (day : Day) (dd : Nat)
    (psc : List (Nat × Nat)) : Option String :=
  if availCountAbd workers dd psc = 0 then some "ABDOMEN"
  else if availCountAbdPrip workers day dd psc = 0 then some "ABD prip."
  else if availCountTravma workers dd = 0 then some "TRAVMA"
  else none

def feasibilityCheckAux (workers : List Worker) (psc : List (Nat × Nat)) :
    List Day → Nat → Except (String × Nat) Unit
  | [], _ => Except.ok ()
  | day :: rest, dd =>
    match checkDayAvailability workers day dd psc with
    | some wp => Except.error (wp, dd)
    | none => feasibilityCheckAux workers psc rest (dd + 1)

/-- The whole pre-model availability check over the horizon; `Except.error`
reports the first offending (workplace, day index), where the source prints a
warning and calls `exit()`. -/
def feasibilityCheck (workers : List Worker) (dayList : List Day)
    (psc : List (Nat × Nat)) : Except (String × Nat) Unit :=
  feasibilityCheckAux workers psc dayList 0

/- ### optimize.py, quota-sum warnings (lines 166-177) -/

/-- The three non-fatal quota-sum warnings.  The source tests
`sum_abd_dez != num_days` both for the abd_dez message and (again) for the
travma_prip message; `sum_travma_prip` is only interpolated into the text. -/
def quotaSumWarnings (workers : List Worker) (num_days num_workdays : Nat) : List String :=
  let sum_abd_dez := (workers.map Worker.works_abd_dez).sum
  let sum_abd_prip := (workers.map Worker.works_abd_prip).sum
  let sum_travma_prip := (workers.map Worker.works_travma_prip).sum
  (if sum_abd_dez ≠ num_days then
    ["The total number of abd_dez is " ++ toString sum_abd_dez ++ "."] else []) ++
  (if sum_abd_prip ≠ num_workdays then
    ["The total number of abd_prip is " ++ toString sum_abd_prip ++ "."] else []) ++
  (if sum_abd_dez ≠ num_days then
    ["The total number of travma_prip is " ++ toString sum_travma_prip ++ "."] else [])

/- ### optimize.py, night-shift window (lines 337-376) -/

/-- Total number of night-workplace assignments of one worker, the sum
`sum(work[ww, dd, pp] for pp in range_night_workplaces for dd ...)`. -/
def nightTotal (x : Nat → Nat → Bool) (num_days : Nat) : Nat :=
  ((List.range num_days).map (fun dd =>
    (range_night_workplaces.map (fun pp => b2n (x dd pp))).sum)).sum

/-- The constraints the source emits for one night-working worker, as a check
on a solution: `min_shifts = worker.min_night_shifts`,
`max_shifts = max(min_shifts, 5 - worker.reduce_shifts)`, then either the
`max_shifts < min_shifts` branch (total forced to zero) or the two-sided
window. -/
def nightWindowCheck (min_shifts reduce_shifts : Nat) (x : Nat → Nat → Bool)
    (num_days : Nat) : Bool :=
  let max_shifts : Int := max (min_shifts : Int) (5 - (reduce_shifts : Int))
  if max_shifts < (min_shifts : Int) then nightTotal x num_days == 0
  else
    decide ((min_shifts : Int) ≤ (nightTotal x num_days : Int)) &&
      decide ((nightTotal x num_days : Int) ≤ max_shifts)

/-- Whether a solution satisfies the night-shift constraints emitted for
worker `w`: constraints exist only when `works_night_shifts`; a status outside
the dictionary raises `KeyError` in the source (no model, hence `false`). -/
def nightShiftConstraintCheck (w : Worker) (x : Nat → Nat → Bool)
    (num_days : Nat) : Bool :=
  if w.works_night_shifts then
    match min_night_shifts w.status with
    | none => false
    | some mn => nightWindowCheck mn w.reduce_shifts x num_days
  else true

/- ### optimize.py, Krožeči constraint (lines 378-392) -/

/-- Number of days the rotating check counts as eligible:
`worker.workdates[dd][0] in [0, +1]`. -/
def krozeciEligibleDays (w : Worker) (num_days : Nat) : Nat :=
  ((List.range num_days).filter (fun dd => availOK (availPair w dd).1)).length

/-- A pinned-total constraint `sum over all days and workplaces of
work[ww, dd, pp] == required` emitted for the worker at roster index `ww`. -/
structure RotConstraint where
  ww : Nat
  required : Nat
deriving DecidableEq

def addRotatingConstraintsAux (num_days kc : Nat) :
    List Worker → Nat → Except String (List RotConstraint)
  | [], _ => Except.ok []
  | w :: rest, ww =>
    if w.specialty_master = "Krožeči" then
      if krozeciEligibleDays w num_days < kc then Except.error w.name
      else
        match addRotatingConstraintsAux num_days kc rest (ww + 1) with
        | Except.error e => Except.error e
        | Except.ok cs => Except.ok (⟨ww, kc⟩ :: cs)
    else addRotatingConstraintsAux num_days kc rest (ww + 1)

/-- The rotating-worker block: the guard is `worker.specialty[1] == "Krožeči"`
(the master slot of the specialty tuple); an eligible-day shortfall raises,
otherwise the pinned-total constraint with `config["krozeci_scheduled"]` is
added. -/
def addRotatingConstraints (workers : List Worker) (num_days kc : Nat) :
    Except String (List RotConstraint) :=
  addRotatingConstraintsAux num_days kc workers 0

/-- Total number of assignments of the worker at index `ww` over all days and
all 11 workplaces. -/
def totalAssignments (x : Nat → Nat → Nat → Bool) (ww num_days : Nat) : Nat :=
  ((List.range num_days).map (fun dd =>
    ((List.range 11).map (fun pp => b2n (x ww dd pp))).sum)).sum

def satisfiesRotConstraints (cs : List RotConstraint) (x : Nat → Nat → Nat → Bool)
    (num_days : Nat) : Bool :=
  cs.all (fun c => totalAssignments x c.ww num_days == c.required)

/- ### optimize.py, weekend block for night-working workers (lines 235-273) -/

/-- The reified auxiliary Booleans of the weekend block for one night-working
worker, one triple per day index: `works_24_mop_day`, `works_24_mop_night` and
the OR variable `works_24_day`. -/
structure WeekendAux where
  md : Nat → Bool
  mn : Nat → Bool
  w24 : Nat → Bool

/-- The guard `day.is_weekend or day.is_holiday`. -/
def weekendOrHoliday (day : Day) : Bool := day.is_weekend || day.is_holiday

/-- Number of assignments of one worker over all 11 workplaces on day `dd`,
the sum `sum(work[ww, dd, pp] for pp in range(num_workplaces))`. -/
def rowSum (x : Nat → Nat → Bool) (dd : Nat) : Nat :=
  ((List.range 11).map (fun pp => b2n (x dd pp))).sum

/-- The constraints emitted inside the weekend/holiday branch for day `dd`:
the two reified equalities `work == bool`, the paired-station equalities and
inequalities under each enforcement literal, the max-equality defining
`works_24_day`, and the empty-neighbour constraints guarded by
`dd < num_days - 1` and `dd > 0`. -/
def weekendDayCheck (x : Nat → Nat → Bool) (a : WeekendAux) (num_days dd : Nat) : Bool :=
  (x dd mop_day_ndx == a.md dd) &&
  (!a.md dd || (b2n (x dd abd_night_ndx) + b2n (x dd b_night_ndx) == 1)) &&
  (a.md dd || decide (b2n (x dd abd_night_ndx) + b2n (x dd b_night_ndx) ≤ 1)) &&
  (x dd mop_night_ndx == a.mn dd) &&
  (!a.mn dd || (b2n (x dd abd_day_ndx) + b2n (x dd b_day_ndx) == 1)) &&
  (a.mn dd || decide (b2n (x dd abd_day_ndx) + b2n (x dd b_day_ndx) ≤ 1)) &&
  (a.w24 dd == (a.md dd || a.mn dd)) &&
  (!(decide (dd < num_days - 1)) || !a.w24 dd || (rowSum x (dd + 1) == 0)) &&
  (!(decide (0 < dd)) || !a.w24 dd || (rowSum x (dd - 1) == 0))

/-- Whether a solution (with its auxiliary valuation) satisfies every
constraint the weekend block emits for one night-working worker: the per-day
constraints on each weekend/holiday day, plus `sum(mop24_list) <= 1` where
`mop24_list` collects both MOP Booleans of every weekend/holiday day. -/
def weekendConstraintsCheck (dayList : List Day) (x : Nat → Nat → Bool)
    (a : WeekendAux) : Bool :=
  ((List.range dayList.length).all (fun dd =>
    !(weekendOrHoliday (dayList.getD dd emptyDay)) ||
      weekendDayCheck x a dayList.length dd)) &&
  decide (((List.range dayList.length).map (fun dd =>
    if weekendOrHoliday (dayList.getD dd emptyDay) then b2n (a.md dd) + b2n (a.mn dd)
    else 0)).sum ≤ 1)

/-- A "24h weekend assignment" pattern on day `dd` as the spec describes it:
MOP-day plus exactly one of the two other night stations, or MOP-night plus
exactly one of the two other day stations. -/
def pattern24 (x : Nat → Nat → Bool) (dd : Nat) : Bool :=
  (x dd mop_day_ndx && (b2n (x dd abd_night_ndx) + b2n (x dd b_night_ndx) == 1)) ||
  (x dd mop_night_ndx && (b2n (x dd abd_day_ndx) + b2n (x dd b_day_ndx) == 1))

/- ### optimize.py, config and workload equalization (lines 587-622) -/

/-- The configuration dictionary fields the model reads; `workplace_weights`
is the nested weight mapping, modelled as a total function on key strings. -/
structure Config where
  workplace_weights : String → Int
  weight_equal_workload : Int
  weight_consecutive_nights : Int
  weight_equally_distributed_workplaces : Int
  weight_preferred_day_assignment : Int
  weight_preferred_workplace_assignment : Int
  weight_weekend_travmaprip : Int
  krozeci_scheduled : Nat

/-- Year of specialization as the workload code reads it; the source raises
`KeyError` for a status outside the dictionary, modelled as default 0 (used
identically by the code-side and spec-side workload definitions below). -/
def yearOf (w : Worker) : Nat := (year_of_specialization w.status).getD 0

/-- The `wp_weight` lambda of line 602: night weight when the index is a
night workplace, else the workday or weekend weight by day kind. -/
def wp_weight (cfg : Config) (year : Nat) (day : Day) (workplace_ndx : Nat) : Int :=
  if workplace_ndx ∈ range_night_workplaces then
    cfg.workplace_weights ("night_" ++ toString year)
  else if day.is_workday then cfg.workplace_weights "workday"
  else cfg.workplace_weights "weekend"

/-- The `total` expression of line 605 for one worker: sum over all days and
over `list(range_day_workplaces) + list(range_night_workplaces)` of
`wp_weight(day, pp) * work[ww, dd, pp]`. -/
def totalWorkloadCode (cfg : Config) (w : Worker) (dayList : List Day)
    (x : Nat → Nat → Bool) : Int :=
  (dayList.enum.map (fun p =>
    ((range_day_workplaces ++ range_night_workplaces).map (fun pp =>
      wp_weight cfg (yearOf w) p.2 pp * (b2n (x p.1 pp) : Int))).sum)).sum

/-- The `continue` guard of lines 594-596. -/
def skippedFromWorkload (w : Worker) : Bool :=
  w.specialty_wishes == "Krožeči" || w.specialty_master == "Krožeči"

/-- The `total_workloads` list built by the loop of lines 592-607: one entry
per non-skipped worker, in roster order. -/
def total_workloads (cfg : Config) (dayList : List Day) (x : Nat → Nat → Nat → Bool) :
    List Worker → Nat → List Int
  | [], _ => []
  | w :: rest, ww =>
    if skippedFromWorkload w then total_workloads cfg dayList x rest (ww + 1)
    else totalWorkloadCode cfg w dayList (x ww) :: total_workloads cfg dayList x rest (ww + 1)

def listMax : List Int → Int
  | [] => 0
  | a :: l => l.foldl max a

def listMin : List Int → Int
  | [] => 0
  | a :: l => l.foldl min a

/-- Value of `max_workload - min_workload` in a solution: `AddMaxEquality`
and `AddMinEquality` force the two auxiliary variables to the maximum and
minimum of `total_workloads`. -/
def s7Value (cfg : Config) (workers : List Worker) (dayList : List Day)
    (x : Nat → Nat → Nat → Bool) : Int :=
  listMax (total_workloads cfg dayList x workers 0) -
    listMin (total_workloads cfg dayList x workers 0)

/-- Spec-side weight, following the words of the claim: the night weight for
any night workplace, zero for unconnected workplaces (they contribute
nothing), the workday weight for a day workplace on a workday and the weekend
weight otherwise. -/
def wpWeightSpec (cfg : Config) (year : Nat) (day : Day) (pp : Nat) : Int :=
  if pp ∈ range_night_workplaces then cfg.workplace_weights ("night_" ++ toString year)
  else if pp ∈ range_unconnected_workplaces then 0
  else if day.is_workday then cfg.workplace_weights "workday"
  else cfg.workplace_weights "weekend"

/-- Spec-side workload of one worker: sum over all days and all 11
workplaces with `wpWeightSpec`. -/
def totalWorkloadSpec (cfg : Config) (w : Worker) (dayList : List Day)
    (x : Nat → Nat → Bool) : Int :=
  (dayList.enum.map (fun p =>
    ((List.range 11).map (fun pp =>
      wpWeightSpec cfg (yearOf w) p.2 pp * (b2n (x p.1 pp) : Int))).sum)).sum

/-- Spec-side pool: every worker with "Krožeči" in either specialty slot is
excluded entirely; the rest keep their roster indices. -/
def specPoolTotals (cfg : Config) (workers : List Worker) (dayList : List Day)
    (x : Nat → Nat → Nat → Bool) : List Int :=
  (workers.enum.filter (fun p => !(skippedFromWorkload p.2))).map
    (fun p => totalWorkloadSpec cfg p.2 dayList (x p.1))

/- ### optimize.py, preferential-assignment counts and the objective -/

/-- The `penalty_preferential_assignment_day` sum (lines 422-434): day-slot
assignments where the worker marked the day slot +1, plus night-slot
assignments where the worker marked the night slot +1. -/
def penaltyPreferentialAssignmentDay (workers : List Worker) (num_days : Nat)
    (x : Nat → Nat → Nat → Bool) : Nat :=
  (range_day_workplaces.map (fun pp =>
    ((List.range num_days).map (fun dd =>
      (workers.enum.map (fun p =>
        if (availPair p.2 dd).1 == 1 then b2n (x p.1 dd pp) else 0)).sum)).sum)).sum +
  (range_night_workplaces.map (fun pp =>
    ((List.range num_days).map (fun dd =>
      (workers.enum.map (fun p =>
        if (availPair p.2 dd).2 == 1 then b2n (x p.1 dd pp) else 0)).sum)).sum)).sum

/-- The `penalty_preferential_assignment_day_unconnected` sum (lines
437-439): unconnected assignments where `worker.workdates[dd] == (+1, +1)`. -/
def penaltyPreferentialAssignmentDayUnconnected (workers : List Worker)
    (num_days : Nat) (x : Nat → Nat → Nat → Bool) : Nat :=
  (range_unconnected_workplaces.map (fun pp =>
    ((List.range num_days).map (fun dd =>
      (workers.enum.map (fun p =>
        if availPair p.2 dd == ((1 : Int), (1 : Int)) then b2n (x p.1 dd pp) else 0)).sum)).sum)).sum

/-- Values of the named objective-term variables in a solution. -/
structure ObjTerms where
  max_workload : Int
  min_workload : Int
  penalty_consecutive_nights : Int
  penalty_workplace_distribution : Int
  penalty_preferential_assignment_day : Int
  penalty_preferential_assignment_day_unconnected : Int
  penalty_preferential_workplace : Int
  bonus_weekend_travmaprip_senior : Int
deriving DecidableEq

/-- The minimized objective of `model.Minimize` (lines 614-622), as the
source writes it term for term. -/
def objectiveValue (cfg : Config) (t : ObjTerms) : Int :=
  cfg.weight_equal_workload * (t.max_workload - t.min_workload) +
  cfg.weight_consecutive_nights * t.penalty_consecutive_nights +
  cfg.weight_equally_distributed_workplaces * t.penalty_workplace_distribution +
  cfg.weight_preferred_day_assignment *
    (t.penalty_preferential_assignment_day +
      t.penalty_preferential_assignment_day_unconnected) +
  cfg.weight_preferred_workplace_assignment * t.penalty_preferential_workplace +
  (-1) * cfg.weight_weekend_travmaprip * t.bonus_weekend_travmaprip_senior

/- ### optimize.py, result materialization (lines 647-671) -/

def emptyWorker : Worker :=
  ⟨"", "", "", "", "", [], [], [], [], 0, 0, 0, 0, none, none, none⟩

/-- Writes one cell of the schedule array. -/
def setCell (arr : List (List String)) (i j : Nat) (v : String) : List (List String) :=
  arr.set i ((arr.getD i []).set j v)

/-- The schedule-array construction: an `nrows` by `ncols` grid of empty
strings with `ncols = len(ALL_WORKPLACES) + 2` and `nrows = num_days + 1`
(line 648-650); row 0 replaced by the header `["DATUM"] + ALL_WORKPLACES`;
date strings in column 0; preschedule names written verbatim; then every
`work[ww, dd, pp]` valued 1 writes the worker's name, looping days, workers,
workplaces in source order. -/
def buildScheduleArray (dayList : List Day) (preschedule : List (String × Day × String))
    (workers : List Worker) (sol : Nat → Nat → Nat → Bool) : List (List String) :=
  let num_days := dayList.length
  let ncols := ALL_WORKPLACES.length + 2
  let nrows := num_days + 1
  let arr0 := List.replicate nrows (List.replicate ncols "")
  let arr1 := arr0.set 0 (["DATUM"] ++ ALL_WORKPLACES)
  let arr2 := (List.range (nrows - 1)).foldl (fun arr i =>
    setCell arr (i + 1) 0 (dayList.getD i emptyDay).dateStr) arr1
  let arr3 := preschedule.foldl (fun arr entry =>
    setCell arr (dayList.indexOf entry.2.1 + 1)
      (ALL_WORKPLACES.indexOf entry.2.2 + 1) entry.1) arr2
  (List.range num_days).foldl (fun arr dd =>
    (List.range workers.length).foldl (fun arr ww =>
      (List.range ALL_WORKPLACES.length).foldl (fun arr pp =>
        if sol ww dd pp then
          setCell arr (dd + 1) (pp + 1) ((workers.getD ww emptyWorker).name)
        else arr) arr) arr) arr3

/- ### Concrete sample data for closed evaluations -/

/-- A configuration with every weight 1 (all weights are required to be
non-negative integers) and `krozeci_scheduled = 2`. -/
def cfgUnit : Config := ⟨fun _ => 1, 1, 1, 1, 1, 1, 1, 2⟩

def dayMon : Day := ⟨"2025-06-02", DayKind.workday⟩

def dayTue : Day := ⟨"2025-07-01", DayKind.workday⟩

/-- Available on the single day, holds abd-duty and abd-on-call quotas but no
trauma quota. -/
def wSimple : Worker :=
  ⟨"NOVAK JANEZ", "DA", "Abdominalna kirurgija", "Abdominalna kirurgija", "Specialist",
   [0, 1], [5], [], [(0, 0)], 0, 1, 1, 0, none, none, none⟩

/-- Roster worker for the preschedule-pinning evaluation. -/
def wRoster : Worker :=
  ⟨"KOVAČ ANA", "DA", "Travmatologija", "Travmatologija", "Specialist",
   [2], [6], [], [(0, 0)], 0, 1, 1, 0, none, none, none⟩

/-- Quota sums over a 2-day horizon with 1 workday: abd-duty 2 (matches),
abd-on-call 1 (matches), trauma 0 (mismatch). -/
def wQuotaA : Worker :=
  ⟨"ZUPAN EVA", "DA", "Kirurgija", "Kirurgija", "Specialist",
   [0], [], [], [(0, 0), (0, 0)], 0, 2, 1, 0, none, none, none⟩

/-- Quota sums over a 2-day horizon with 0 workdays: abd-duty 1 (mismatch),
abd-on-call 0 (matches), trauma 2 (matches). -/
def wQuotaB : Worker :=
  ⟨"HORVAT TINE", "DA", "Kirurgija", "Kirurgija", "Specialist",
   [0], [], [], [(0, 0), (0, 0)], 0, 1, 0, 2, none, none, none⟩

/-- Marked +1 for both slots of the single day. -/
def wPref : Worker :=
  ⟨"KRANJC LEA", "DA", "Kirurgija", "Kirurgija", "Specialist",
   [0], [], [], [(1, 1)], 0, 0, 0, 0, none, none, none⟩

/- ### Claim C1 -/

/-- Claim C1 (code bug, divergence evaluation): the preferential-assignment
count enters the minimized objective with POSITIVE sign.  The first worker's
lone preferred-day assignment gives count 1 against count 0 for the empty
assignment, and with every weight 1 and all other objective terms equal, the
term valuation with the larger preferred count has the strictly LARGER
objective value, where the claim asserts the smaller. -/
theorem c1_preferential_sign_divergence :
    penaltyPreferentialAssignmentDay [wPref] 1
      (fun ww dd pp => ww == 0 && dd == 0 && pp == 0) = 1 ∧
    penaltyPreferentialAssignmentDay [wPref] 1 (fun _ _ _ => false) = 0 ∧
    objectiveValue cfgUnit ⟨0, 0, 0, 0, 0, 0, 0, 0⟩ <
      objectiveValue cfgUnit ⟨0, 0, 0, 0, 1, 0, 0, 0⟩ := by
  refine ⟨by decide, by decide, by decide⟩

/- ### Claim C2 -/

/-- Claim C2 (code bug, divergence evaluation): on a day whose TRAVMA slot is
preassigned in the preschedule, the pre-model check still aborts with
("TRAVMA", day) when no worker with trauma quota is available, because the
preschedule marker is appended to the dead `empty_days_travma_prip` list
instead of the availability list; the same check passes when the roster does
contain an available trauma quota holder. -/
theorem c2_preassigned_travma_aborts :
    feasibilityCheck [wSimple] [dayMon] [(0, get_ndx "TRAVMA")] =
      Except.error ("TRAVMA", 0) ∧
    feasibilityCheck [wSimple, wQuotaB] [dayMon] [] = Except.ok () := by
  exact ⟨rfl, rfl⟩

/- ### Claim C7 -/

/-- Claim C7 (code bug, divergence evaluation): the materialized table has
`num_days + 1` rows, but `ncols` is `len(ALL_WORKPLACES) + 2`, so every
non-header row carries `|workplaces| + 2` cells (the last always empty) while
the header row, replaced wholesale by `["DATUM"] + ALL_WORKPLACES`, has
`|workplaces| + 1`; the claimed `|workplaces| + 1` column count fails for the
data rows. -/
theorem c7_row_width_divergence :
    (buildScheduleArray [dayMon] [] [wSimple] (fun _ _ _ => false)).length = 2 ∧
    ((buildScheduleArray [dayMon] [] [wSimple] (fun _ _ _ => false)).getD 0 []).length =
      ALL_WORKPLACES.length + 1 ∧
    ((buildScheduleArray [dayMon] [] [wSimple] (fun _ _ _ => false)).getD 1 []).length =
      ALL_WORKPLACES.length + 2 ∧
    ALL_WORKPLACES.length + 2 ≠ ALL_WORKPLACES.length + 1 := by
  refine ⟨rfl, rfl, rfl, by decide⟩

/- ### Claim C8 -/

/-- Claim C8 (code bug, divergence evaluation): the trauma on-call warning is
keyed on `sum_abd_dez != num_days`, not on `sum_travma_prip != num_days`.
With `wQuotaA` the trauma quota sum mismatches (0 ≠ 2) yet no warning is
emitted; with `wQuotaB` the trauma quota sum matches (2 = 2) yet the
travma_prip warning appears, dragged along by the abd_dez mismatch. -/
theorem c8_travma_warning_divergence :
    ([wQuotaA].map Worker.works_travma_prip).sum ≠ 2 ∧
    quotaSumWarnings [wQuotaA] 2 1 = [] ∧
    ([wQuotaB].map Worker.works_travma_prip).sum = 2 ∧
    quotaSumWarnings [wQuotaB] 2 0 =
      ["The total number of abd_dez is 1.",
       "The total number of travma_prip is 2."] := by
  refine ⟨by decide, rfl, by decide, rfl⟩

/- ### Claim C10 -/

/-- Claim C10 (code bug, divergence evaluation): an off-roster preschedule
entry lands in `preschedule_constraints` (`zeros`) and a roster entry is
pinned instead (`pins`), as the claim describes; but the off-roster TRAVMA
preassignment does NOT count as covered in the pre-model check, which aborts
with ("TRAVMA", 0) on exactly the slot the entry preassigns. -/
theorem c10_preassignment_coverage_divergence :
    processPreschedule [wRoster] [dayTue] [("GOST MIHA", dayTue, "TRAVMA")] =
      ⟨[], [(0, 10)]⟩ ∧
    processPreschedule [wRoster] [dayTue] [("KOVAČ ANA", dayTue, "ABDOMEN")] =
      ⟨[(0, 0, 8)], []⟩ ∧
    feasibilityCheck [wRoster] [dayTue]
      (processPreschedule [wRoster] [dayTue] [("GOST MIHA", dayTue, "TRAVMA")]).zeros =
      Except.error ("TRAVMA", 0) := by
  exact ⟨rfl, rfl, rfl⟩

/- ### Claim C9 -/

/-- Lookup in an association list misses every key absent from the list. -/
theorem lookup_none_of_key_notMem {β : Type} (s : String) :
    ∀ l : List (String × β), s ∉ l.map Prod.fst → List.lookup s l = none := by
  intro l
  induction l with
  | nil => intro _; rfl
  | cons kv rest ih =>
    intro h
    obtain ⟨k, b⟩ := kv
    have hk : s ≠ k := by
      intro he
      exact h (by simp [he])
    have hb : (s == k) = false := beq_false_of_ne hk
    have hr : s ∉ rest.map Prod.fst := by
      intro hm
      exact h (by simp [hm])
    simpa [List.lookup, hb] using ih hr

/-- The §6 status table exactly as the claim lists it: status string to the
pair (year_of_specialization, min_night_shifts). -/
def statusTableSpec : List (String × Nat × Nat) :=
  [("1. leto specializacije", 1, 0),
   ("2. leto specializacije", 2, 5),
   ("3. leto specializacije", 3, 4),
   ("4. leto specializacije", 4, 3),
   ("5. leto specializacije", 5, 2),
   ("6. leto specializacije", 6, 1),
   ("Manj kot 6 mesecev do specialističnega izpita", 6, 0),
   ("Specialist", 6, 0)]

def statusKeys : List String := statusTableSpec.map Prod.fst

/-- Claim C9: for every status string, the pair of translations from
`worker.py` equals the §6 table lookup — years 1..6 map to min_nights
0, 5, 4, 3, 2, 1 respectively, the under-six-months and Specialist statuses
map to year 6 with min_nights 0, and any string outside the table is mapped
by neither dictionary. -/
theorem c9_status_translation (s : String) :
    (year_of_specialization s, min_night_shifts s) =
      (match statusTableSpec.lookup s with
       | some p => (some p.1, some p.2)
       | none => (none, none)) := by
  by_cases h : s ∈ statusKeys
  · simp only [statusKeys, statusTableSpec, List.map, List.mem_cons,
      List.not_mem_nil, or_false] at h
    rcases h with rfl | rfl | rfl | rfl | rfl | rfl | rfl | rfl <;> rfl
  · have hy : status_to_year_dict.lookup s = none := by
      apply lookup_none_of_key_notMem
      intro hm
      exact h (by rw [show statusKeys = status_to_year_dict.map Prod.fst from rfl]; exact hm)
    have hn : min_shifts_dict.lookup s = none := by
      apply lookup_none_of_key_notMem
      intro hm
      exact h (by rw [show statusKeys = min_shifts_dict.map Prod.fst from rfl]; exact hm)
    have hs : statusTableSpec.lookup s = none := by
      apply lookup_none_of_key_notMem
      intro hm
      exact h hm
    simp [year_of_specialization, min_night_shifts, hy, hn, hs]

/-- Claim C9 witness: at the concrete out-of-table status "Docent" the
theorem yields (none, none). -/
theorem c9_status_translation_witness :
    (year_of_specialization "Docent", min_night_shifts "Docent") =
      ((none : Option Nat), (none : Option Nat)) := by
  exact (c9_status_translation "Docent").trans rfl

/- ### Claim C3 -/

/-- Rotating sentinel in the wishes slot only. -/
def wKroWishes : Worker :=
  ⟨"ROTIRA MOJCA", "DA", "Krožeči", "Urologija", "Specialist",
   [0], [], [], [(0, 0), (0, 0), (0, 0)], 0, 0, 0, 0, none, none, none⟩

/-- Rotating sentinel in the master slot. -/
def wKroMaster : Worker :=
  ⟨"KROZI MARKO", "DA", "Urologija", "Krožeči", "Specialist",
   [0], [], [], [(0, 0), (0, 0), (0, 0)], 0, 0, 0, 0, none, none, none⟩

/-- Claim C3 counterexample: a worker carrying "Krožeči" only in the wishes
slot triggers neither the eligibility abort nor a pinned-total constraint —
the rotating block emits nothing for them, though fewer eligible days (3)
than needed would also never be checked. -/
theorem c3_wishes_slot_ignored :
    wKroWishes.specialty_wishes = "Krožeči" ∧
    addRotatingConstraints [wKroWishes] 3 2 = Except.ok [] := by
  exact ⟨rfl, rfl⟩

/-- Every master-slot rotating worker in a successful rotating-block run
passed the eligibility check and contributed the pinned-total constraint at
its shifted index. -/
theorem addRotatingConstraintsAux_spec (num_days kc : Nat) :
    ∀ (workers : List Worker) (base : Nat) (cs : List RotConstraint),
      addRotatingConstraintsAux num_days kc workers base = Except.ok cs →
      ∀ i w, workers.get? i = some w → w.specialty_master = "Krožeči" →
        kc ≤ krozeciEligibleDays w num_days ∧ (⟨base + i, kc⟩ : RotConstraint) ∈ cs := by
  intro workers
  induction workers with
  | nil =>
    intro base cs _ i w hi
    simp at hi
  | cons w0 rest ih =>
    intro base cs hok i w hi hrot
    simp only [addRotatingConstraintsAux] at hok
    by_cases h0 : w0.specialty_master = "Krožeči"
    · rw [if_pos h0] at hok
      by_cases hel : krozeciEligibleDays w0 num_days < kc
      · rw [if_pos hel] at hok
        exact absurd hok (by simp)
      · rw [if_neg hel] at hok
        cases hrest : addRotatingConstraintsAux num_days kc rest (base + 1) with
        | error e =>
          rw [hrest] at hok
          exact absurd hok (by simp)
        | ok cs1 =>
          rw [hrest] at hok
          have hcs : cs = ⟨base, kc⟩ :: cs1 := by
            cases hok
            rfl
          subst hcs
          cases i with
          | zero =>
            have hww : w = w0 := by
              simp at hi
              exact hi.symm
            subst hww
            refine ⟨Nat.le_of_not_lt hel, ?_⟩
            simp
          | succ j =>
            have hj : rest.get? j = some w := hi
            obtain ⟨hle, hmem⟩ := ih (base + 1) cs1 hrest j w hj hrot
            refine ⟨hle, ?_⟩
            have hidx : base + (j + 1) = base + 1 + j := by omega
            rw [hidx]
            exact List.mem_cons_of_mem _ hmem
    · rw [if_neg h0] at hok
      cases i with
      | zero =>
        have hww : w = w0 := by
          simp at hi
          exact hi.symm
        subst hww
        exact absurd hrot h0
      | succ j =>
        have hj : rest.get? j = some w := hi
        obtain ⟨hle, hmem⟩ := ih (base + 1) cs hok j w hj hrot
        have hidx : base + (j + 1) = base + 1 + j := by omega
        rw [hidx]
        exact ⟨hle, hmem⟩

/-- Claim C3 (amended): the rotating block keys on the MASTER specialty slot
only.  When the block succeeds and the worker at roster index `ww` carries
"Krožeči" in the master slot, that worker passed the eligibility abort
(`kc ≤ krozeciEligibleDays`), the pinned-total constraint ⟨ww, kc⟩ was
emitted, and every solution satisfying the emitted constraints assigns that
worker exactly `kc` shifts over all days and workplaces. -/
theorem c3_rotating_master_slot (workers : List Worker) (num_days kc : Nat)
    (cs : List RotConstraint) (ww : Nat) (w : Worker) (x : Nat → Nat → Nat → Bool)
    (hok : addRotatingConstraints workers num_days kc = Except.ok cs)
    (hw : workers.get? ww = some w)
    (hrot : w.specialty_master = "Krožeči")
    (hsat : satisfiesRotConstraints cs x num_days = true) :
    kc ≤ krozeciEligibleDays w num_days ∧
    (⟨ww, kc⟩ : RotConstraint) ∈ cs ∧
    totalAssignments x ww num_days = kc := by
  obtain ⟨hle, hmem⟩ :=
    addRotatingConstraintsAux_spec num_days kc workers 0 cs hok ww w hw hrot
  rw [Nat.zero_add] at hmem
  refine ⟨hle, hmem, ?_⟩
  have := List.all_eq_true.mp hsat ⟨ww, kc⟩ hmem
  simpa using this

/-- Claim C3 witness: the amended theorem applied to the one-worker roster
with the master-slot rotating worker, a 3-day horizon, count 2, and a
concrete solution assigning that worker exactly days 0 and 1 at workplace 0. -/
theorem c3_rotating_master_slot_witness :
    2 ≤ krozeciEligibleDays wKroMaster 3 ∧
    (⟨0, 2⟩ : RotConstraint) ∈ [(⟨0, 2⟩ : RotConstraint)] ∧
    totalAssignments (fun ww dd pp => ww == 0 && pp == 0 && (dd == 0 || dd == 1)) 0 3 = 2 := by
  exact c3_rotating_master_slot [wKroMaster] 3 2 [⟨0, 2⟩] 0 wKroMaster
    (fun ww dd pp => ww == 0 && pp == 0 && (dd == 0 || dd == 1))
    rfl rfl rfl (by decide)

/- ### Claim C4 -/

/-- Claim C4: for a night-eligible worker (some night workplace tagged YES
or MAYBE) whose status maps to `mn`, every solution satisfying the emitted
night-shift constraints keeps the night-workplace total between `mn` and
`max(mn, 5 − reduce_shifts)` inclusive, and receives no night assignment at
all when that window is [0, 0]. -/
theorem c4_night_window (w : Worker) (x : Nat → Nat → Bool) (num_days mn : Nat)
    (hne : w.works_night_shifts = true)
    (hmn : min_night_shifts w.status = some mn)
    (hsat : nightShiftConstraintCheck w x num_days = true) :
    (mn : Int) ≤ (nightTotal x num_days : Int) ∧
    (nightTotal x num_days : Int) ≤ max (mn : Int) (5 - (w.reduce_shifts : Int)) ∧
    (mn = 0 ∧ max (mn : Int) (5 - (w.reduce_shifts : Int)) = 0 →
      nightTotal x num_days = 0) := by
  simp only [nightShiftConstraintCheck, hne, if_true, hmn] at hsat
  simp only [nightWindowCheck] at hsat
  have hdead : ¬ (max (mn : Int) (5 - (w.reduce_shifts : Int)) < (mn : Int)) :=
    not_lt.mpr (le_max_left _ _)
  rw [if_neg hdead] at hsat
  rw [Bool.and_eq_true] at hsat
  have h1 : (mn : Int) ≤ (nightTotal x num_days : Int) := of_decide_eq_true hsat.1
  have h2 : (nightTotal x num_days : Int) ≤ max (mn : Int) (5 - (w.reduce_shifts : Int)) :=
    of_decide_eq_true hsat.2
  refine ⟨h1, h2, ?_⟩
  rintro ⟨-, hmx⟩
  rw [hmx] at h2
  omega

/-- Night-eligible sample worker: YES on workplace 5, status Specialist
(min_nights 0), reduce_shifts 5, so the window is [0, 0]. -/
def wNight : Worker :=
  ⟨"VIDMAR NEJC", "DA", "Kirurgija", "Kirurgija", "Specialist",
   [5], [], [], [(0, 0)], 5, 0, 0, 0, none, none, none⟩

/-- Claim C4 witness: the theorem at the concrete night-eligible worker with
window [0, 0] and the empty solution over a 1-day horizon. -/
theorem c4_night_window_witness :
    ((0 : Nat) : Int) ≤ (nightTotal (fun _ _ => false) 1 : Int) ∧
    (nightTotal (fun _ _ => false) 1 : Int) ≤
      max ((0 : Nat) : Int) (5 - (wNight.reduce_shifts : Int)) ∧
    ((0 : Nat) = 0 ∧ max ((0 : Nat) : Int) (5 - (wNight.reduce_shifts : Int)) = 0 →
      nightTotal (fun _ _ => false) 1 = 0) := by
  exact c4_night_window wNight (fun _ _ => false) 1 0 rfl rfl (by decide)

/- ### Claim C5 -/

/-- countP is bounded by the sum of any per-element budget that is at least
1 on every counted element. -/
theorem countP_le_map_sum {α : Type} (p : α → Bool) (f : α → Nat) :
    ∀ l : List α, (∀ a ∈ l, p a = true → 1 ≤ f a) → l.countP p ≤ (l.map f).sum := by
  intro l
  induction l with
  | nil =>
    intro _
    simp
  | cons a l ih =>
    intro h
    rw [List.countP_cons, List.map_cons, List.sum_cons]
    have hl := ih (fun b hb => h b (List.mem_cons_of_mem a hb))
    by_cases hp : p a = true
    · have h1 := h a (List.mem_cons_self a l) hp
      rw [if_pos hp]
      omega
    · rw [if_neg hp]
      omega

/-- Under the weekend constraints, every weekend/holiday day of the horizon
satisfies the per-day check. -/
theorem weekendDayCheck_of_sat (dayList : List Day) (x : Nat → Nat → Bool)
    (a : WeekendAux) (dd : Nat)
    (hsat : weekendConstraintsCheck dayList x a = true)
    (hdd : dd < dayList.length)
    (hwh : weekendOrHoliday (dayList.getD dd emptyDay) = true) :
    weekendDayCheck x a dayList.length dd = true := by
  rw [weekendConstraintsCheck, Bool.and_eq_true] at hsat
  have h := List.all_eq_true.mp hsat.1 dd (List.mem_range.mpr hdd)
  rw [hwh] at h
  simpa using h

/-- The per-day weekend check read back as propositions: the two reified
MOP equalities, the paired equalities/inequalities under each enforcement
literal, the OR variable, and the empty-neighbour implications. -/
theorem weekendDay_props (x : Nat → Nat → Bool) (a : WeekendAux) (n dd : Nat)
    (h : weekendDayCheck x a n dd = true) :
    x dd mop_day_ndx = a.md dd ∧
    (a.md dd = true → b2n (x dd abd_night_ndx) + b2n (x dd b_night_ndx) = 1) ∧
    (a.md dd = false → b2n (x dd abd_night_ndx) + b2n (x dd b_night_ndx) ≤ 1) ∧
    x dd mop_night_ndx = a.mn dd ∧
    (a.mn dd = true → b2n (x dd abd_day_ndx) + b2n (x dd b_day_ndx) = 1) ∧
    (a.mn dd = false → b2n (x dd abd_day_ndx) + b2n (x dd b_day_ndx) ≤ 1) ∧
    a.w24 dd = (a.md dd || a.mn dd) ∧
    (dd < n - 1 → a.w24 dd = true → rowSum x (dd + 1) = 0) ∧
    (0 < dd → a.w24 dd = true → rowSum x (dd - 1) = 0) := by
  simp only [weekendDayCheck, Bool.and_eq_true, Bool.or_eq_true, Bool.not_eq_true',
    beq_iff_eq, decide_eq_true_eq, decide_eq_false_iff_not] at h
  obtain ⟨⟨⟨⟨⟨⟨⟨⟨h1, h2⟩, h3⟩, h4⟩, h5⟩, h6⟩, h7⟩, h8⟩, h9⟩ := h
  refine ⟨h1, ?_, ?_, h4, ?_, ?_, h7, ?_, ?_⟩
  · intro hm
    rcases h2 with h | h
    · rw [hm] at h
      simp at h
    · exact h
  · intro hm
    rcases h2 with h | h
    · rcases h3 with hh | hh
      · rw [hm] at hh
        simp at hh
      · exact hh
    · exact le_of_eq h
  · intro hm
    rcases h5 with h | h
    · rw [hm] at h
      simp at h
    · exact h
  · intro hm
    rcases h6 with hh | hh
    · rw [hm] at hh
      simp at hh
    · exact hh
  · intro hlt hw
    rcases h8 with (h | h) | h
    · exact absurd hlt h
    · rw [hw] at h
      simp at h
    · exact h
  · intro hpos hw
    rcases h9 with (h | h) | h
    · exact absurd hpos h
    · rw [hw] at h
      simp at h
    · exact h

/-- Claim C5: for a night-working worker's satisfying solution (with its
auxiliary valuation), on every weekend or holiday day dd: MOP-day forces
exactly one of the two other night stations and MOP-night exactly one of the
two other day stations; with neither MOP worked, at most one of each pair;
a 24h pattern on dd empties both neighbouring days that exist; and at most
one weekend/holiday day of the month carries a 24h pattern. -/
theorem c5_weekend_24h (dayList : List Day) (x : Nat → Nat → Bool)
    (a : WeekendAux) (dd : Nat) (day : Day)
    (hsat : weekendConstraintsCheck dayList x a = true)
    (hget : dayList.get? dd = some day)
    (hwh : weekendOrHoliday day = true) :
    (x dd mop_day_ndx = true →
      b2n (x dd abd_night_ndx) + b2n (x dd b_night_ndx) = 1) ∧
    (x dd mop_night_ndx = true →
      b2n (x dd abd_day_ndx) + b2n (x dd b_day_ndx) = 1) ∧
    (x dd mop_day_ndx = false → x dd mop_night_ndx = false →
      b2n (x dd abd_night_ndx) + b2n (x dd b_night_ndx) ≤ 1 ∧
      b2n (x dd abd_day_ndx) + b2n (x dd b_day_ndx) ≤ 1) ∧
    (pattern24 x dd = true →
      (dd < dayList.length - 1 → rowSum x (dd + 1) = 0) ∧
      (0 < dd → rowSum x (dd - 1) = 0)) ∧
    (List.range dayList.length).countP
      (fun d2 => weekendOrHoliday (dayList.getD d2 emptyDay) && pattern24 x d2) ≤ 1 := by
  have hdd : dd < dayList.length := by
    rcases List.get?_eq_some.mp hget with ⟨h, _⟩
    exact h
  have hgd : dayList.getD dd emptyDay = day := by
    rw [List.getD_eq_getElem?_getD, ← List.get?_eq_getElem?, hget]
    rfl
  have hdayck := weekendDayCheck_of_sat dayList x a dd hsat hdd (by rw [hgd]; exact hwh)
  obtain ⟨p1, p2, p3, p4, p5, p6, p7, p8, p9⟩ :=
    weekendDay_props x a dayList.length dd hdayck
  refine ⟨?_, ?_, ?_, ?_, ?_⟩
  · intro hx
    exact p2 (by rw [← p1]; exact hx)
  · intro hx
    exact p5 (by rw [← p4]; exact hx)
  · intro hxd hxn
    exact ⟨p3 (by rw [← p1]; exact hxd), p6 (by rw [← p4]; exact hxn)⟩
  · intro hp
    have hw24 : a.w24 dd = true := by
      simp only [pattern24, Bool.or_eq_true, Bool.and_eq_true, beq_iff_eq] at hp
      rw [p7]
      rcases hp with ⟨hx, -⟩ | ⟨hx, -⟩
      · rw [p1] at hx
        rw [hx, Bool.true_or]
      · rw [p4] at hx
        rw [hx, Bool.or_true]
    exact ⟨fun hlt => p8 hlt hw24, fun hpos => p9 hpos hw24⟩
  · have hsat2 := hsat
    rw [weekendConstraintsCheck, Bool.and_eq_true] at hsat2
    have hsum := of_decide_eq_true hsat2.2
    refine le_trans (countP_le_map_sum _ _ _ ?_) hsum
    intro d2 hd2 hpd
    rw [Bool.and_eq_true] at hpd
    obtain ⟨hwh2, hp2⟩ := hpd
    have hd2lt : d2 < dayList.length := List.mem_range.mp hd2
    have hck2 := weekendDayCheck_of_sat dayList x a d2 hsat hd2lt hwh2
    obtain ⟨q1, -, -, q4, -, -, -, -, -⟩ :=
      weekendDay_props x a dayList.length d2 hck2
    show 1 ≤ if weekendOrHoliday (dayList.getD d2 emptyDay) then
      b2n (a.md d2) + b2n (a.mn d2) else 0
    rw [if_pos hwh2]
    simp only [pattern24, Bool.or_eq_true, Bool.and_eq_true, beq_iff_eq] at hp2
    rcases hp2 with ⟨hx, -⟩ | ⟨hx, -⟩
    · rw [q1] at hx
      rw [hx]
      exact Nat.le_add_right 1 _
    · rw [q4] at hx
      rw [hx]
      exact Nat.le_add_left 1 _

def daySat : Day := ⟨"2025-06-07", DayKind.weekend⟩

def daySun : Day := ⟨"2025-06-08", DayKind.weekend⟩

def xNone : Nat → Nat → Bool := fun _ _ => false

def auxNone : WeekendAux := ⟨fun _ => false, fun _ => false, fun _ => false⟩

/-- Claim C5 witness: the theorem at a concrete two-day weekend horizon with
the empty solution and all-false auxiliary valuation, at day index 0. -/
theorem c5_weekend_24h_witness :
    (xNone 0 mop_day_ndx = true →
      b2n (xNone 0 abd_night_ndx) + b2n (xNone 0 b_night_ndx) = 1) ∧
    (xNone 0 mop_night_ndx = true →
      b2n (xNone 0 abd_day_ndx) + b2n (xNone 0 b_day_ndx) = 1) ∧
    (xNone 0 mop_day_ndx = false → xNone 0 mop_night_ndx = false →
      b2n (xNone 0 abd_night_ndx) + b2n (xNone 0 b_night_ndx) ≤ 1 ∧
      b2n (xNone 0 abd_day_ndx) + b2n (xNone 0 b_day_ndx) ≤ 1) ∧
    (pattern24 xNone 0 = true →
      (0 < [daySat, daySun].length - 1 → rowSum xNone (0 + 1) = 0) ∧
      (0 < 0 → rowSum xNone (0 - 1) = 0)) ∧
    (List.range [daySat, daySun].length).countP
      (fun d2 => weekendOrHoliday ([daySat, daySun].getD d2 emptyDay) &&
        pattern24 xNone d2) ≤ 1 := by
  exact c5_weekend_24h [daySat, daySun] xNone auxNone 0 daySat (by decide) rfl rfl

/- ### Claim C6 -/

/-- Summing the code-side weights over the 8 connected workplace indices
equals summing the spec-side weights over all 11 indices: the spec weight
agrees on connected indices and vanishes on the three unconnected ones. -/
theorem inner_weight_sum (cfg : Config) (year : Nat) (day : Day) (f : Nat → Int) :
    ((range_day_workplaces ++ range_night_workplaces).map
      (fun pp => wp_weight cfg year day pp * f pp)).sum =
    ((List.range 11).map (fun pp => wpWeightSpec cfg year day pp * f pp)).sum := by
  rw [show List.range 11 = [0, 1, 2, 3, 4, 5, 6, 7, 8, 9, 10] from rfl]
  simp only [range_day_workplaces, range_night_workplaces, range_unconnected_workplaces,
    wp_weight, wpWeightSpec, List.cons_append, List.nil_append, List.map_cons,
    List.map_nil, List.sum_cons, List.sum_nil, List.mem_cons, List.mem_singleton,
    List.not_mem_nil]
  norm_num

/-- Per worker, the code-side workload equals the spec-side workload. -/
theorem totalWorkload_code_eq_spec (cfg : Config) (w : Worker) (dayList : List Day)
    (x : Nat → Nat → Bool) :
    totalWorkloadCode cfg w dayList x = totalWorkloadSpec cfg w dayList x := by
  unfold totalWorkloadCode totalWorkloadSpec
  have hfun : (fun p : Nat × Day =>
      ((range_day_workplaces ++ range_night_workplaces).map
        (fun pp => wp_weight cfg (yearOf w) p.2 pp * (b2n (x p.1 pp) : Int))).sum) =
      (fun p : Nat × Day =>
      ((List.range 11).map
        (fun pp => wpWeightSpec cfg (yearOf w) p.2 pp * (b2n (x p.1 pp) : Int))).sum) := by
    funext p
    exact inner_weight_sum cfg (yearOf w) p.2 (fun pp => (b2n (x p.1 pp) : Int))
  rw [hfun]

/-- The skip-loop of the source builds exactly the filtered, index-keeping
pool of spec-side workloads. -/
theorem total_workloads_eq_specPool (cfg : Config) (dayList : List Day)
    (x : Nat → Nat → Nat → Bool) :
    ∀ (workers : List Worker) (base : Nat),
      total_workloads cfg dayList x workers base =
        ((List.enumFrom base workers).filter (fun p => !(skippedFromWorkload p.2))).map
          (fun p => totalWorkloadSpec cfg p.2 dayList (x p.1)) := by
  intro workers
  induction workers with
  | nil =>
    intro base
    rfl
  | cons w rest ih =>
    intro base
    by_cases hs : skippedFromWorkload w = true
    · simp [total_workloads, hs, List.enumFrom, List.filter_cons, ih]
    · simp [total_workloads, hs, List.enumFrom, List.filter_cons, ih,
        totalWorkload_code_eq_spec]

/-- Claim C6: the workload-equalization term is the maximum minus the
minimum of the pool of per-worker totals, where the pool excludes every
worker with "Krožeči" in either specialty slot, and each pool member's total
is the spec-side weighted sum: the `night_{year}` weight for night
workplaces, the workday or weekend weight for day workplaces by day kind,
and weight zero for the unconnected workplaces. -/
theorem c6_workload_term (cfg : Config) (workers : List Worker) (dayList : List Day)
    (x : Nat → Nat → Nat → Bool) :
    s7Value cfg workers dayList x =
      listMax (specPoolTotals cfg workers dayList x) -
        listMin (specPoolTotals cfg workers dayList x) := by
  unfold s7Value specPoolTotals
  rw [total_workloads_eq_specPool]
  rfl

/-- Claim C6 witness: the identity at a concrete one-worker, one-day
instance. -/
theorem c6_workload_term_witness :
    s7Value cfgUnit [wSimple] [dayMon] (fun _ _ _ => false) =
      listMax (specPoolTotals cfgUnit [wSimple] [dayMon] (fun _ _ _ => false)) -
        listMin (specPoolTotals cfgUnit [wSimple] [dayMon] (fun _ _ _ => false)) := by
  exact c6_workload_term cfgUnit [wSimple] [dayMon] (fun _ _ _ => false)

end SchedSurg
